import Mathlib

/-!
# Shallow embedding of the I2C SD-card module firmware

This file embeds the protocol core of `I2CSDCardModule.ino` (the TWI
peripheral state machine of the ATtiny1614 SD-card bridge) as executable
Lean definitions and proves properties of the embedded code.

Conventions:
* Bytes are plain natural numbers; command selectors keep their ASCII codes
  ('F' = 70, 'W' = 87, 'A' = 65, 'R' = 82, 'S' = 83, 'E' = 69, 'X' = 88,
  'D' = 68, 'L' = 76, 'Z' = 90).
* The SD backend (`SD.open`, `SD.exists`, `SD.remove`, `SD.mkdir`, the
  root-directory iterator) is an external collaborator; it is modelled by
  a `Card` record of oracle functions, with the root directory a fixed
  list of entry names.
* The global variables `cmd`, `ch`, `ptr`, `Filename`, `myFile`, `dir`
  and the `fileData` union become the fields of a `Session` record.
* Side effects that the claims talk about (stores into the `Filename`
  buffer, calls to `SD.remove`, the `_PROTECTED_WRITE(RSTCTRL.SWRR, 1)`
  software reset) are recorded in the result records of the handlers,
  exactly where the corresponding calls appear in the source.
-/

namespace I2CSD

/-- `const uint8_t Namelength = 32;` — the bound of `char Filename[Namelength]`. -/
def Namelength : Nat := 32

/-- The open-mode flag combinations the firmware passes to `SD.open`. -/
inductive Mode where
  /-- `O_RDWR | O_CREAT | O_TRUNC` (command 'W'). -/
  | writeCreate : Mode
  /-- `O_READ` (commands 'R' and 'S'). -/
  | readOnly : Mode
  /-- `O_RDWR | O_CREAT | O_APPEND` (command 'A'). -/
  | appendCreate : Mode
deriving DecidableEq

/-- The state of an open file handle: its byte content and read position. -/
structure FileState where
  content : List Nat
  pos : Nat
deriving DecidableEq

/-- The SD-card backend, an external collaborator, as a record of oracles.
`entries` is the list of root-directory entry names (each name without
its terminating 0; `dir.openNextFile()` walks this list in order). The
remaining fields give the results of `SD.open`, `SD.exists`, `SD.remove`
and `SD.mkdir` applied to the current `Filename` buffer. -/
structure Card where
  entries : List (List Nat)
  openFile : (Nat → Nat) → Mode → Option FileState
  existsResult : (Nat → Nat) → Bool
  removeResult : (Nat → Nat) → Bool
  mkdirResult : (Nat → Nat) → Bool

/-- The session state: the firmware's global variables.
`cmd`, `ch`, `ptr` are `uint8_t cmd = 0; uint8_t ch = 0, ptr = 0;`;
`filename` models the `char Filename[Namelength]` buffer as a total map
from indices to bytes; `myFile` and `dir` are the two `File` globals
(`dir = some i` means the root directory is open with its iterator about
to yield entry `i`); `filesize` is the `fileData.Filesize` member of the
`union FileData`. -/
structure Session where
  cmd : Nat
  ch : Nat
  ptr : Nat
  filename : Nat → Nat
  myFile : Option FileState
  dir : Option Nat
  filesize : Nat

/-- The state at startup: all counters 0, buffer zeroed, no open handles. -/
def initSession : Session :=
  { cmd := 0, ch := 0, ptr := 0, filename := fun _ => 0,
    myFile := none, dir := none, filesize := 0 }

/-- `entry.name()[i]`: the `i`-th character of a null-terminated entry
name whose characters are `nm`; indices from `nm.length` on read the
terminator 0. -/
def nameChar (nm : List Nat) (i : Nat) : Nat := nm.getD i 0

/-- `myFile.read()`: returns the byte at the current position and
advances it; at end of file, or on a closed/invalid handle, `File.read`
returns -1, which the `uint8_t response` assignment truncates to 255. -/
def fileRead : Option FileState → Option FileState × Nat
  | none => (none, 255)
  | some f =>
    if h : f.pos < f.content.length then
      (some { f with pos := f.pos + 1 }, f.content.get ⟨f.pos, h⟩)
    else (some f, 255)

/-- `myFile.write(b)`: appends a byte to the open file; a write on a
closed/invalid handle is a no-op. -/
def fileWrite (b : Nat) : Option FileState → Option FileState
  | none => none
  | some f => some { f with content := f.content ++ [b], pos := f.pos + 1 }

/-- `myFile.size()`: the length of the content; 0 on a closed/invalid
handle. -/
def fileSize : Option FileState → Nat
  | none => 0
  | some f => f.content.length

/-- `fileData.Filebytes[i]` of the `union FileData { uint32_t Filesize;
uint8_t Filebytes[4]; }`: the AVR is little-endian, so byte `i` of the
union overlay is bits `8*i .. 8*i+7` of `Filesize`. -/
def Filebytes (n i : Nat) : Nat := n / 256 ^ i % 256

/-- Result of one `DataHostRead` invocation: the updated session, the
byte written to `TWI0.SDATA`, and whether this invocation called
`SD.remove` / issued the `_PROTECTED_WRITE(RSTCTRL.SWRR, 1)` software
reset. -/
structure ReadResult where
  sess : Session
  resp : Nat
  removeCalled : Bool
  resetIssued : Bool

/-- `void DataHostRead()` (lines 125–169): produce the next outgoing
byte for the active command.
* 'R': `response = myFile.read()`.
* 'L': `if (!dir) dir = SD.open("/")` (iterator starts at entry 0), then
  `entry = dir.openNextFile()` — called on every invocation, so the
  iterator advances one entry per byte; if an entry exists,
  `response = entry.name()[ptr++]`, and when that byte is 0 the local
  entry is closed and `ptr` reset; otherwise `dir.close()` and
  `response = 0`.
* 'E': `response = SD.exists(Filename)`.
* 'X': `response = SD.remove(Filename)` — a fresh backend call on every
  invocation, recorded in `removeCalled`.
* 'S': while `ptr < 4`: on `ptr == 0` capture
  `fileData.Filesize = myFile.size()` (a `uint32_t`, hence mod 2^32),
  then `response = fileData.Filebytes[3-ptr]; ptr++`.
* 'Z': `_PROTECTED_WRITE(RSTCTRL.SWRR, 1)` — recorded in `resetIssued`.
* any other command: `response` keeps its initial value 0. -/
def DataHostRead (card : Card) (s : Session) : ReadResult :=
  if s.cmd = 82 then
    let r := fileRead s.myFile
    { sess := { s with myFile := r.1 }, resp := r.2,
      removeCalled := false, resetIssued := false }
  else if s.cmd = 76 then
    let i := s.dir.getD 0
    match card.entries.get? i with
    | some nm =>
      let r := nameChar nm s.ptr
      if r = 0 then
        { sess := { s with dir := some (i + 1), ptr := 0 }, resp := 0,
          removeCalled := false, resetIssued := false }
      else
        { sess := { s with dir := some (i + 1), ptr := s.ptr + 1 }, resp := r,
          removeCalled := false, resetIssued := false }
    | none =>
      { sess := { s with dir := none }, resp := 0,
        removeCalled := false, resetIssued := false }
  else if s.cmd = 69 then
    { sess := s, resp := if card.existsResult s.filename then 1 else 0,
      removeCalled := false, resetIssued := false }
  else if s.cmd = 88 then
    { sess := s, resp := if card.removeResult s.filename then 1 else 0,
      removeCalled := true, resetIssued := false }
  else if s.cmd = 83 then
    if s.ptr < 4 then
      let sz := if s.ptr = 0 then fileSize s.myFile % 2 ^ 32 else s.filesize
      { sess := { s with filesize := sz, ptr := s.ptr + 1 },
        resp := Filebytes sz (3 - s.ptr),
        removeCalled := false, resetIssued := false }
    else
      { sess := s, resp := 0, removeCalled := false, resetIssued := false }
  else if s.cmd = 90 then
    { sess := s, resp := 0, removeCalled := false, resetIssued := true }
  else
    { sess := s, resp := 0, removeCalled := false, resetIssued := false }

/-- Result of one `DataHostWrite` invocation: the updated session, the
boolean that `SendResponse` turns into ACK/NACK, the indices stored into
the `Filename` buffer by this invocation, and whether the invocation
issued a device reset (the source of `DataHostWrite` contains no reset
call, so this field is false in every branch). -/
structure WriteResult where
  sess : Session
  ack : Bool
  stores : List Nat
  resetIssued : Bool

/-- `boolean DataHostWrite()` (lines 171–211): process one incoming
payload byte `b` (= `TWI0.SDATA`).
* If `cmd == 0`: `cmd = b`; 'F' is acknowledged with no resource action;
  otherwise, if no file is open, dispatch: 'W' opens
  `SD.open(Filename, O_RDWR|O_CREAT|O_TRUNC)`, 'R'/'S' open
  `SD.open(Filename, O_READ)`, 'A' opens
  `SD.open(Filename, O_RDWR|O_CREAT|O_APPEND)` — each acknowledged iff
  the handle is valid (`return myFile != 0`); 'D' returns
  `SD.mkdir(Filename)`; anything else returns false. If a file is
  already open, acknowledge without dispatching.
* Else if `cmd == 'F' && ch < Namelength`:
  `Filename[ch++] = b; Filename[ch] = 0;` — stores at indices `ch` and
  `ch + 1`, recorded in `stores`; acknowledge.
* Else if `cmd == 'W' || cmd == 'A'`: `myFile.write(b)`; acknowledge.
* Else: return false. -/
def DataHostWrite (card : Card) (s : Session) (b : Nat) : WriteResult :=
  if s.cmd = 0 then
    let s1 := { s with cmd := b }
    if b = 70 then
      { sess := s1, ack := true, stores := [], resetIssued := false }
    else if s.myFile = none then
      if b = 87 then
        let f := card.openFile s.filename Mode.writeCreate
        { sess := { s1 with myFile := f }, ack := f.isSome,
          stores := [], resetIssued := false }
      else if b = 82 ∨ b = 83 then
        let f := card.openFile s.filename Mode.readOnly
        { sess := { s1 with myFile := f }, ack := f.isSome,
          stores := [], resetIssued := false }
      else if b = 65 then
        let f := card.openFile s.filename Mode.appendCreate
        { sess := { s1 with myFile := f }, ack := f.isSome,
          stores := [], resetIssued := false }
      else if b = 68 then
        { sess := s1, ack := card.mkdirResult s.filename,
          stores := [], resetIssued := false }
      else
        { sess := s1, ack := false, stores := [], resetIssued := false }
    else
      { sess := s1, ack := true, stores := [], resetIssued := false }
  else if s.cmd = 70 ∧ s.ch < Namelength then
    { sess := { s with
        filename := fun i =>
          if i = s.ch + 1 then 0 else if i = s.ch then b else s.filename i,
        ch := s.ch + 1 },
      ack := true, stores := [s.ch, s.ch + 1], resetIssued := false }
  else if s.cmd = 87 ∨ s.cmd = 65 then
    { sess := { s with myFile := fileWrite b s.myFile }, ack := true,
      stores := [], resetIssued := false }
  else
    { sess := s, ack := false, stores := [], resetIssued := false }

/-- `boolean AddressHostRead()` (lines 114–116): a read-direction
selection changes nothing and returns true. -/
def AddressHostRead (s : Session) : Session × Bool := (s, true)

/-- `boolean AddressHostWrite()` (lines 118–121):
`cmd = 0; ch = 0; ptr = 0; return true;`. -/
def AddressHostWrite (s : Session) : Session × Bool :=
  ({ s with cmd := 0, ch := 0, ptr := 0 }, true)

/-- `void Stop()` (lines 213–226): on a stop event, commands
'W'/'R'/'A'/'S' close `myFile`; command 'L' closes `dir` if open. -/
def stopEvent (s : Session) : Session :=
  if s.cmd = 87 ∨ s.cmd = 82 ∨ s.cmd = 65 ∨ s.cmd = 83 then
    { s with myFile := none }
  else if s.cmd = 76 then
    { s with dir := none }
  else s

/-- The bus events the TWI interrupt service routine distinguishes:
read-direction selection, write-direction selection, an incoming data
byte, an outgoing-byte request, and a stop condition. -/
inductive Ev where
  | selR : Ev
  | selW : Ev
  | dataW : Nat → Ev
  | dataR : Ev
  | stop : Ev

/-- One ISR dispatch, projected onto the session state. -/
def stepS (card : Card) (s : Session) : Ev → Session
  | Ev.selR => (AddressHostRead s).1
  | Ev.selW => (AddressHostWrite s).1
  | Ev.dataW b => (DataHostWrite card s b).sess
  | Ev.dataR => (DataHostRead card s).sess
  | Ev.stop => stopEvent s

/-- The session reached from `s` by a sequence of bus events. -/
def run (card : Card) (s : Session) (es : List Ev) : Session :=
  es.foldl (stepS card) s

/-- The bytes produced by `n` successive outgoing-byte requests from
session `s`. -/
def readOutputs (card : Card) : Session → Nat → List Nat
  | _, 0 => []
  | s, n + 1 =>
    let r := DataHostRead card s
    r.resp :: readOutputs card r.sess n

/-- The session after `n` successive outgoing-byte requests from `s`. -/
def dataReads (card : Card) : Session → Nat → Session
  | s, 0 => s
  | s, n + 1 => dataReads card (DataHostRead card s).sess n

/-- How many of `n` successive outgoing-byte requests from `s` call
`SD.remove`. -/
def removeCount (card : Card) : Session → Nat → Nat
  | _, 0 => 0
  | s, n + 1 =>
    let r := DataHostRead card s
    (if r.removeCalled then 1 else 0) + removeCount card r.sess n

/-- A complete bus transaction: a selection, its data bytes (incoming
bytes for write direction, a number of outgoing-byte requests for read
direction), and the closing stop condition. -/
inductive Txn where
  | wr : List Nat → Txn
  | rd : Nat → Txn

/-- The session partway through a write-direction transaction: after the
selection and the given incoming bytes, before the stop. -/
def midWrite (card : Card) (s : Session) (bs : List Nat) : Session :=
  bs.foldl (fun a b => (DataHostWrite card a b).sess) (AddressHostWrite s).1

/-- The session partway through a read-direction transaction: after the
selection and `n` outgoing-byte requests, before the stop. -/
def midRead (card : Card) (s : Session) (n : Nat) : Session :=
  dataReads card (AddressHostRead s).1 n

/-- A complete transaction: its mid-transaction run followed by the stop
event. -/
def runTxn (card : Card) (s : Session) : Txn → Session
  | Txn.wr bs => stopEvent (midWrite card s bs)
  | Txn.rd n => stopEvent (midRead card s n)

/-- The session after a sequence of complete (stop-terminated)
transactions. -/
def runTxns (card : Card) (s : Session) : List Txn → Session
  | [] => s
  | t :: ts => runTxns card (runTxn card s t) ts

/-- At most one of the file handle and the directory handle is open. -/
def atMostOneHandle (s : Session) : Prop :=
  ¬(s.myFile.isSome = true ∧ s.dir.isSome = true)

/-- The handle/command coupling the firmware maintains: an open file
handle only exists under one of the file-bearing commands
'W'/'R'/'A'/'S', and an open directory handle only under 'L'. -/
def Jinv (s : Session) : Prop :=
  (s.myFile.isSome = true → s.cmd = 87 ∨ s.cmd = 82 ∨ s.cmd = 65 ∨ s.cmd = 83) ∧
  (s.dir.isSome = true → s.cmd = 76)

/-- Both handles closed. -/
def handlesClosed (s : Session) : Prop := s.myFile = none ∧ s.dir = none

/-- A backend on which every operation fails and the root directory is
empty. -/
def emptyCard : Card :=
  { entries := [], openFile := fun _ _ => none,
    existsResult := fun _ => false, removeResult := fun _ => false,
    mkdirResult := fun _ => false }

/-- A backend whose root directory holds two entries named "AB" and
"CD". -/
def twoEntryCard : Card :=
  { emptyCard with entries := [[65, 66], [67, 68]] }

/-- A backend on which every open succeeds (yielding an empty file) and
every boolean operation returns true; the root directory holds one
entry named "A". -/
def fullCard : Card :=
  { entries := [[65]], openFile := fun _ _ => some ⟨[], 0⟩,
    existsResult := fun _ => true, removeResult := fun _ => true,
    mkdirResult := fun _ => true }

/-- A session whose active command is 'L'. -/
def listSession : Session := { initSession with cmd := 76 }

/-- A session whose active command is 'R'. -/
def readCmdSession : Session := { initSession with cmd := 82 }

/-- A session whose active command is 'X'. -/
def removeSession : Session := { initSession with cmd := 88 }

/-- A session whose active command is 'Z'. -/
def resetSession : Session := { initSession with cmd := 90 }

/-- A two-byte open file. -/
def sizeFile : FileState := ⟨[1, 2], 0⟩

/-- A session whose active command is 'S' with `sizeFile` open. -/
def sizeSession : Session :=
  { initSession with cmd := 83, myFile := some sizeFile }

/-- A session in filename mode whose cursor is at the last in-bounds
index of the 32-byte buffer. -/
def fullNameSession : Session := { initSession with cmd := 70, ch := 31 }

/-- A session in filename mode whose cursor has reached the bound. -/
def overNameSession : Session := { initSession with cmd := 70, ch := 32 }

/-- A session whose active command is 'F'. -/
def fnameSession : Session := { initSession with cmd := 70 }

/-- An event sequence using repeated starts (selections not preceded by
a stop): select write, send 'L', select read, request one listing byte,
select write again, send 'W'. -/
def bothOpenEvents : List Ev :=
  [Ev.selW, Ev.dataW 76, Ev.selR, Ev.dataR, Ev.selW, Ev.dataW 87]

/-! ## Theorems -/

/-- Dropping the `uint32_t` truncation of the captured size commutes
with extracting any of its four bytes. -/
theorem mod232_div (L k : Nat) (hk : k ≤ 24) :
    L % 2 ^ 32 / 2 ^ k % 256 = L / 2 ^ k % 256 := by
  have h1 : (2 : Nat) ^ 32 = 2 ^ k * 2 ^ (32 - k) := by
    rw [← pow_add]
    congr 1
    omega
  rw [h1, Nat.mod_mul_right_div_self]
  have h2 : (256 : Nat) ∣ 2 ^ (32 - k) := by
    have h3 : (256 : Nat) = 2 ^ 8 := by norm_num
    rw [h3]
    exact pow_dvd_pow 2 (by omega)
  exact Nat.mod_mod_of_dvd _ h2

/-- C1 (code_bug): with root entries "AB" and "CD", the listing phase is
required to produce the concatenation of the names, each exactly once
and 0-terminated, so its first three bytes would be 'A','B',0; the code
calls `dir.openNextFile()` on every outgoing-byte request, so each byte
comes from a fresh entry and the stream starts 'A','D',0 instead. -/
theorem c1_list_directory_interleaves_entries :
    readOutputs twoEntryCard listSession 3 = [65, 68, 0] ∧
    readOutputs twoEntryCard listSession 3 ≠ [65, 66, 0] := by
  constructor
  · rfl
  · decide

/-- C2 (confirmed): with active command 'S' and cursor 0 over an open
file of size `n`, the producer captures the size (as a `uint32_t`) at
the first request, and the four requests at cursors 0,1,2,3 emit the
big-endian bytes `n >> 24`, `n >> 16`, `n >> 8`, `n` (each mod 256),
leaving the cursor at 4. -/
theorem c2_size_query_big_endian (card : Card) (s : Session) (f : FileState)
    (hc : s.cmd = 83) (hp : s.ptr = 0) (hf : s.myFile = some f) :
    readOutputs card s 4 =
      [f.content.length / 2 ^ 24 % 256,
       f.content.length / 2 ^ 16 % 256,
       f.content.length / 2 ^ 8 % 256,
       f.content.length % 256] ∧
    (DataHostRead card s).sess.filesize = f.content.length % 2 ^ 32 ∧
    (dataReads card s 4).ptr = 4 := by
  obtain ⟨c, ch, p, fn, mf, dr, fs⟩ := s
  simp only at hc hp hf
  subst hc hp hf
  simp only [readOutputs, dataReads, DataHostRead, fileSize, Filebytes]
  norm_num
  refine ⟨?_, ?_, ?_⟩
  · have h := mod232_div f.content.length 24 (by norm_num)
    norm_num at h
    exact h
  · have h := mod232_div f.content.length 16 (by norm_num)
    norm_num at h
    exact h
  · have h := mod232_div f.content.length 8 (by norm_num)
    norm_num at h
    exact h

/-- Witness for C2 at a concrete two-byte file. -/
theorem c2_size_query_big_endian_witness :
    readOutputs emptyCard sizeSession 4 =
      [sizeFile.content.length / 2 ^ 24 % 256,
       sizeFile.content.length / 2 ^ 16 % 256,
       sizeFile.content.length / 2 ^ 8 % 256,
       sizeFile.content.length % 256] ∧
    (DataHostRead emptyCard sizeSession).sess.filesize =
      sizeFile.content.length % 2 ^ 32 ∧
    (dataReads emptyCard sizeSession 4).ptr = 4 :=
  c2_size_query_big_endian emptyCard sizeSession sizeFile rfl rfl rfl

/-- C3 (counterexample): a read-direction selection does not clear the
active command to its initial value 0: with active command 'R' it is
still 'R' afterwards. -/
theorem c3_read_selection_keeps_command :
    (AddressHostRead readCmdSession).1.cmd ≠ 0 := by
  decide

/-- C3 (corrected): a write-direction selection clears the active
command and both cursors while preserving the filename buffer and both
handles, and acknowledges; a read-direction selection leaves the whole
session unchanged and acknowledges. -/
theorem c3_selection_reset (s : Session) :
    (AddressHostWrite s).1.cmd = 0 ∧ (AddressHostWrite s).1.ch = 0 ∧
    (AddressHostWrite s).1.ptr = 0 ∧
    (AddressHostWrite s).1.filename = s.filename ∧
    (AddressHostWrite s).1.myFile = s.myFile ∧
    (AddressHostWrite s).1.dir = s.dir ∧
    (AddressHostWrite s).2 = true ∧
    (AddressHostRead s).1 = s ∧ (AddressHostRead s).2 = true :=
  ⟨rfl, rfl, rfl, rfl, rfl, rfl, rfl, rfl, rfl⟩

/-- C4 (confirmed): with no active command and no open file, the first
payload byte 'W' opens the filename in create-truncate-readwrite mode,
'R' and 'S' open it read-only, 'A' opens it create-append-readwrite,
each acknowledged iff the open succeeded; 'D' calls the backend
make-directory on the filename, acknowledges iff it returned true, and
retains no handle. -/
theorem c4_command_dispatch_opens (card : Card) (s : Session)
    (hc : s.cmd = 0) (hm : s.myFile = none) :
    ((DataHostWrite card s 87).sess.myFile =
        card.openFile s.filename Mode.writeCreate ∧
      (DataHostWrite card s 87).ack =
        (card.openFile s.filename Mode.writeCreate).isSome) ∧
    ((DataHostWrite card s 82).sess.myFile =
        card.openFile s.filename Mode.readOnly ∧
      (DataHostWrite card s 82).ack =
        (card.openFile s.filename Mode.readOnly).isSome) ∧
    ((DataHostWrite card s 83).sess.myFile =
        card.openFile s.filename Mode.readOnly ∧
      (DataHostWrite card s 83).ack =
        (card.openFile s.filename Mode.readOnly).isSome) ∧
    ((DataHostWrite card s 65).sess.myFile =
        card.openFile s.filename Mode.appendCreate ∧
      (DataHostWrite card s 65).ack =
        (card.openFile s.filename Mode.appendCreate).isSome) ∧
    ((DataHostWrite card s 68).ack = card.mkdirResult s.filename ∧
      (DataHostWrite card s 68).sess.myFile = none ∧
      (DataHostWrite card s 68).sess.dir = s.dir) := by
  unfold DataHostWrite
  simp [hc, hm]

/-- Witness for C4 at a concrete backend on which opens succeed. -/
theorem c4_command_dispatch_opens_witness :
    ((DataHostWrite fullCard initSession 87).sess.myFile =
        fullCard.openFile initSession.filename Mode.writeCreate ∧
      (DataHostWrite fullCard initSession 87).ack =
        (fullCard.openFile initSession.filename Mode.writeCreate).isSome) ∧
    ((DataHostWrite fullCard initSession 82).sess.myFile =
        fullCard.openFile initSession.filename Mode.readOnly ∧
      (DataHostWrite fullCard initSession 82).ack =
        (fullCard.openFile initSession.filename Mode.readOnly).isSome) ∧
    ((DataHostWrite fullCard initSession 83).sess.myFile =
        fullCard.openFile initSession.filename Mode.readOnly ∧
      (DataHostWrite fullCard initSession 83).ack =
        (fullCard.openFile initSession.filename Mode.readOnly).isSome) ∧
    ((DataHostWrite fullCard initSession 65).sess.myFile =
        fullCard.openFile initSession.filename Mode.appendCreate ∧
      (DataHostWrite fullCard initSession 65).ack =
        (fullCard.openFile initSession.filename Mode.appendCreate).isSome) ∧
    ((DataHostWrite fullCard initSession 68).ack =
        fullCard.mkdirResult initSession.filename ∧
      (DataHostWrite fullCard initSession 68).sess.myFile = none ∧
      (DataHostWrite fullCard initSession 68).sess.dir = initSession.dir) :=
  c4_command_dispatch_opens fullCard initSession rfl rfl

/-- C5 (code_bug): the guard `ch < Namelength` admits `ch = 31`, where
the incoming byte is stored at index 31 but the null terminator is then
stored at index 32 = Namelength, outside the 32-byte buffer, so the
terminator is not at an index strictly below the bound; a byte arriving
once the cursor has reached the bound is negatively acknowledged and
leaves the session (buffer included) unchanged. -/
theorem c5_terminator_store_out_of_bounds :
    (DataHostWrite emptyCard fullNameSession 65).stores = [31, 32] ∧
    ¬(32 < Namelength) ∧
    (DataHostWrite emptyCard overNameSession 65).ack = false ∧
    (DataHostWrite emptyCard overNameSession 65).sess = overNameSession ∧
    (DataHostWrite emptyCard overNameSession 65).stores = [] :=
  ⟨rfl, by decide, rfl, rfl, rfl⟩

/-- C6 (counterexample): the dispatcher handles first payload byte 'Z'
through its default branch — no reset is issued at dispatch time and the
byte is negatively acknowledged with the command left set to 'Z'; the
reset side effect is instead issued by the byte-stream producer on the
following outgoing-byte request. -/
theorem c6_reset_not_at_dispatch :
    (DataHostWrite emptyCard initSession 90).resetIssued = false ∧
    (DataHostWrite emptyCard initSession 90).ack = false ∧
    (DataHostWrite emptyCard initSession 90).sess.cmd = 90 ∧
    (DataHostRead emptyCard
        (DataHostWrite emptyCard initSession 90).sess).resetIssued = true :=
  ⟨rfl, rfl, rfl, rfl⟩

/-- C6 (corrected): dispatching 'Z' performs no reset: it is treated as
an unrecognized byte (negative acknowledgement, active command left
'Z'); the software reset `_PROTECTED_WRITE(RSTCTRL.SWRR, 1)` is issued
by the byte-stream producer on an outgoing-byte request while the
active command is 'Z'. -/
theorem c6_reset_in_read_phase (card : Card) (s s2 : Session)
    (hc : s.cmd = 0) (hm : s.myFile = none) (hz : s2.cmd = 90) :
    (DataHostWrite card s 90).ack = false ∧
    (DataHostWrite card s 90).sess.cmd = 90 ∧
    (DataHostWrite card s 90).resetIssued = false ∧
    (DataHostRead card s2).resetIssued = true := by
  unfold DataHostWrite DataHostRead
  simp [hc, hm, hz]

/-- Witness for C6 at concrete sessions. -/
theorem c6_reset_in_read_phase_witness :
    (DataHostWrite emptyCard initSession 90).ack = false ∧
    (DataHostWrite emptyCard initSession 90).sess.cmd = 90 ∧
    (DataHostWrite emptyCard initSession 90).resetIssued = false ∧
    (DataHostRead emptyCard resetSession).resetIssued = true :=
  c6_reset_in_read_phase emptyCard initSession resetSession rfl rfl rfl

/-- C7 (counterexample): a read phase with active command 'X' that makes
two outgoing-byte requests calls the backend remove twice, not exactly
once. -/
theorem c7_remove_called_per_request :
    removeCount emptyCard removeSession 2 = 2 := rfl

/-- C7 (corrected): while the active command is 'X', every outgoing-byte
request executes the backend remove(filename) once and produces 1 or 0
according to its result, leaving the session unchanged; hence a phase
with exactly one outgoing-byte request executes it exactly once. -/
theorem c7_remove_result_byte (card : Card) (s : Session)
    (hc : s.cmd = 88) :
    (DataHostRead card s).removeCalled = true ∧
    (DataHostRead card s).resp =
      (if card.removeResult s.filename then 1 else 0) ∧
    (DataHostRead card s).sess = s ∧
    removeCount card s 1 = 1 := by
  unfold DataHostRead removeCount
  simp [hc]
  unfold removeCount
  simp [DataHostRead, hc]

/-- Witness for C7 at a concrete session. -/
theorem c7_remove_result_byte_witness :
    (DataHostRead emptyCard removeSession).removeCalled = true ∧
    (DataHostRead emptyCard removeSession).resp =
      (if emptyCard.removeResult removeSession.filename then 1 else 0) ∧
    (DataHostRead emptyCard removeSession).sess = removeSession ∧
    removeCount emptyCard removeSession 1 = 1 :=
  c7_remove_result_byte emptyCard removeSession rfl

/-- C8 (counterexample): the unrecognized first payload byte 0 is
negatively acknowledged, but since the stored active command 0 is the
"none" encoding, the next payload byte is dispatched as a fresh command
and 'F' is positively acknowledged, contradicting "every subsequent
payload byte is negatively acknowledged until the next selection". -/
theorem c8_zero_byte_not_stuck :
    (DataHostWrite emptyCard initSession 0).ack = false ∧
    (DataHostWrite emptyCard
        (DataHostWrite emptyCard initSession 0).sess 70).ack = true :=
  ⟨rfl, rfl⟩

/-- C8 (corrected): a nonzero first payload byte outside the command set
{'F','W','A','R','S','E','X','D','L','Z'}, arriving with no active
command and no open file, is negatively acknowledged, the active command
remains that byte, every subsequent payload byte is negatively
acknowledged with the session unchanged, and the next write-direction
selection clears the command. -/
theorem c8_unknown_command_sticks (card : Card) (s : Session) (b : Nat)
    (hc : s.cmd = 0) (hm : s.myFile = none) (hb0 : b ≠ 0)
    (hb : b ∉ ([70, 87, 65, 82, 83, 69, 88, 68, 76, 90] : List Nat)) :
    (DataHostWrite card s b).ack = false ∧
    (DataHostWrite card s b).sess.cmd = b ∧
    (∀ b2, (DataHostWrite card (DataHostWrite card s b).sess b2).ack = false ∧
      (DataHostWrite card (DataHostWrite card s b).sess b2).sess =
        (DataHostWrite card s b).sess) ∧
    (AddressHostWrite (DataHostWrite card s b).sess).1.cmd = 0 := by
  simp only [List.mem_cons, List.not_mem_nil, or_false] at hb
  push_neg at hb
  obtain ⟨h70, h87, h65, h82, h83, h69, h88, h68, h76, h90⟩ := hb
  unfold DataHostWrite AddressHostWrite
  simp [hc, hm, h70, h87, h65, h82, h83, h68, hb0]

/-- Witness for C8 at the unrecognized byte 'Q' (81). -/
theorem c8_unknown_command_sticks_witness :
    (DataHostWrite emptyCard initSession 81).ack = false ∧
    (DataHostWrite emptyCard initSession 81).sess.cmd = 81 ∧
    (∀ b2, (DataHostWrite emptyCard
        (DataHostWrite emptyCard initSession 81).sess b2).ack = false ∧
      (DataHostWrite emptyCard
          (DataHostWrite emptyCard initSession 81).sess b2).sess =
        (DataHostWrite emptyCard initSession 81).sess) ∧
    (AddressHostWrite (DataHostWrite emptyCard initSession 81).sess).1.cmd = 0 :=
  c8_unknown_command_sticks emptyCard initSession 81 rfl rfl
    (by decide) (by decide)

/-- C10 (confirmed): an outgoing-byte request whose active command is
none of 'R', 'L', 'E', 'X', 'Z' and is not 'S' with cursor below 4 — so
the command is none, 'F', 'W', 'A', 'D', an unrecognized byte, or 'S'
from the fifth request on — produces the byte 0. -/
theorem c10_default_response_zero (card : Card) (s : Session)
    (h1 : s.cmd ≠ 82) (h2 : s.cmd ≠ 76) (h3 : s.cmd ≠ 69) (h4 : s.cmd ≠ 88)
    (h5 : s.cmd ≠ 90) (h6 : s.cmd = 83 → 4 ≤ s.ptr) :
    (DataHostRead card s).resp = 0 := by
  unfold DataHostRead
  rw [if_neg h1, if_neg h2, if_neg h3, if_neg h4]
  by_cases h83 : s.cmd = 83
  · have h7 := h6 h83
    rw [if_pos h83, if_neg (by omega : ¬s.ptr < 4)]
  · rw [if_neg h83, if_neg h5]

/-- Witness for C10 at active command 'F'. -/
theorem c10_default_response_zero_witness :
    (DataHostRead emptyCard fnameSession).resp = 0 :=
  c10_default_response_zero emptyCard fnameSession (by decide) (by decide)
    (by decide) (by decide) (by decide) (by decide)

/-- `File.read` does not change whether the handle is open. -/
theorem fileRead_isSome (o : Option FileState) :
    (fileRead o).1.isSome = o.isSome := by
  cases o with
  | none => rfl
  | some f =>
    simp only [fileRead]
    split <;> rfl

/-- `File.write` does not change whether the handle is open. -/
theorem fileWrite_isSome (b : Nat) (o : Option FileState) :
    (fileWrite b o).isSome = o.isSome := by
  cases o <;> rfl

/-- `DataHostWrite` never touches the directory handle. -/
theorem dataW_dir (card : Card) (s : Session) (b : Nat) :
    (DataHostWrite card s b).sess.dir = s.dir := by
  unfold DataHostWrite
  repeat' split
  all_goals rfl

/-- `DataHostWrite` sets the command to the incoming byte when it was 0
and keeps it otherwise. -/
theorem dataW_cmd (card : Card) (s : Session) (b : Nat) :
    (DataHostWrite card s b).sess.cmd = if s.cmd = 0 then b else s.cmd := by
  unfold DataHostWrite
  by_cases h0 : s.cmd = 0
  · rw [if_pos h0, if_pos h0]
    repeat' split
    all_goals rfl
  · rw [if_neg h0, if_neg h0]
    repeat' split
    all_goals rfl

/-- `DataHostWrite` either leaves the file handle's openness unchanged,
or runs with command 0 on one of the file-opening bytes. -/
theorem dataW_isSome (card : Card) (s : Session) (b : Nat) :
    (DataHostWrite card s b).sess.myFile.isSome = s.myFile.isSome ∨
    (s.cmd = 0 ∧ (b = 87 ∨ b = 82 ∨ b = 65 ∨ b = 83)) := by
  unfold DataHostWrite
  repeat' split
  all_goals first
    | exact Or.inl rfl
    | exact Or.inl (fileWrite_isSome _ _)
    | tauto

/-- `Jinv` is preserved by an incoming data byte. -/
theorem Jinv_dataW (card : Card) (s : Session) (b : Nat) (h : Jinv s) :
    Jinv (DataHostWrite card s b).sess := by
  obtain ⟨h1, h2⟩ := h
  have hdir := dataW_dir card s b
  have hcmd := dataW_cmd card s b
  have hsome := dataW_isSome card s b
  constructor
  · intro hh
    rcases hsome with hs | ⟨h0, hb⟩
    · rw [hs] at hh
      have hw := h1 hh
      have hne : ¬s.cmd = 0 := by rcases hw with h' | h' | h' | h' <;> omega
      rw [hcmd, if_neg hne]
      exact hw
    · rw [hcmd, if_pos h0]
      exact hb
  · intro hh
    rw [hdir] at hh
    have h76 := h2 hh
    rw [hcmd, if_neg (by omega : ¬s.cmd = 0)]
    exact h76

/-- `DataHostRead` never changes the active command. -/
theorem dataR_cmd (card : Card) (s : Session) :
    (DataHostRead card s).sess.cmd = s.cmd := by
  unfold DataHostRead
  dsimp only
  repeat' split
  all_goals rfl

/-- `DataHostRead` never changes whether the file handle is open. -/
theorem dataR_isSome (card : Card) (s : Session) :
    (DataHostRead card s).sess.myFile.isSome = s.myFile.isSome := by
  unfold DataHostRead
  dsimp only
  repeat' split
  all_goals first
    | rfl
    | exact fileRead_isSome _

/-- `DataHostRead` only touches the directory handle under command 'L'. -/
theorem dataR_dir (card : Card) (s : Session) :
    (DataHostRead card s).sess.dir = s.dir ∨ s.cmd = 76 := by
  unfold DataHostRead
  dsimp only
  repeat' split
  all_goals first
    | exact Or.inl rfl
    | tauto

/-- `Jinv` is preserved by an outgoing-byte request. -/
theorem Jinv_dataR (card : Card) (s : Session) (h : Jinv s) :
    Jinv (DataHostRead card s).sess := by
  obtain ⟨h1, h2⟩ := h
  constructor
  · intro hh
    rw [dataR_isSome card s] at hh
    rw [dataR_cmd card s]
    exact h1 hh
  · intro hh
    rcases dataR_dir card s with hd | h76
    · rw [hd] at hh
      rw [dataR_cmd card s]
      exact h2 hh
    · rw [dataR_cmd card s]
      exact h76

/-- Under `Jinv`, the stop handler closes every open handle: file-bearing
commands close the file, 'L' closes the directory, and in all other
cases `Jinv` guarantees no handle was open. -/
theorem stopEvent_closes (s : Session) (h : Jinv s) :
    handlesClosed (stopEvent s) := by
  obtain ⟨h1, h2⟩ := h
  have hmn : s.cmd = 87 ∨ s.cmd = 82 ∨ s.cmd = 65 ∨ s.cmd = 83 ∨
      s.myFile = none := by
    cases hmf : s.myFile with
    | none => tauto
    | some f => rcases h1 (by rw [hmf]; rfl) with h' | h' | h' | h' <;> tauto
  have hdn : s.cmd = 76 ∨ s.dir = none := by
    cases hdr : s.dir with
    | none => tauto
    | some i => exact Or.inl (h2 (by rw [hdr]; rfl))
  unfold stopEvent handlesClosed
  split
  next hc =>
    refine ⟨rfl, ?_⟩
    rcases hdn with h76 | hnone
    · exfalso
      rcases hc with h' | h' | h' | h' <;> omega
    · exact hnone
  next hc =>
    split
    next hc76 =>
      refine ⟨?_, rfl⟩
      rcases hmn with h' | h' | h' | h' | hnone
      · exact absurd (by tauto) hc
      · exact absurd (by tauto) hc
      · exact absurd (by tauto) hc
      · exact absurd (by tauto) hc
      · exact hnone
    next hc76n =>
      constructor
      · rcases hmn with h' | h' | h' | h' | hnone
        · exact absurd (by tauto) hc
        · exact absurd (by tauto) hc
        · exact absurd (by tauto) hc
        · exact absurd (by tauto) hc
        · exact hnone
      · rcases hdn with h76 | hnone
        · exact absurd h76 hc76n
        · exact hnone

/-- Closed handles trivially satisfy the handle/command coupling. -/
theorem handlesClosed_Jinv (s : Session) (h : handlesClosed s) : Jinv s := by
  obtain ⟨hm, hd⟩ := h
  constructor <;> intro hh
  · rw [hm] at hh
    simp at hh
  · rw [hd] at hh
    simp at hh

/-- The handle/command coupling rules out both handles being open. -/
theorem Jinv_atMostOne (s : Session) (h : Jinv s) : atMostOneHandle s := by
  rintro ⟨hm, hd⟩
  have h76 := h.2 hd
  rcases h.1 hm with h' | h' | h' | h' <;> omega

/-- `Jinv` is preserved across any run of incoming data bytes. -/
theorem Jinv_writeFold (card : Card) (bs : List Nat) (s : Session)
    (h : Jinv s) :
    Jinv (bs.foldl (fun a b => (DataHostWrite card a b).sess) s) := by
  induction bs generalizing s with
  | nil => exact h
  | cons b bs ih => exact ih _ (Jinv_dataW card s b h)

/-- `Jinv` is preserved across any run of outgoing-byte requests. -/
theorem Jinv_dataReads (card : Card) (n : Nat) (s : Session) (h : Jinv s) :
    Jinv (dataReads card s n) := by
  induction n generalizing s with
  | zero => exact h
  | succ n ih => exact ih _ (Jinv_dataR card s h)

/-- Starting from closed handles, `Jinv` holds anywhere inside a
write-direction transaction. -/
theorem midWrite_Jinv (card : Card) (s : Session) (bs : List Nat)
    (h : handlesClosed s) : Jinv (midWrite card s bs) := by
  unfold midWrite
  exact Jinv_writeFold card bs _ (handlesClosed_Jinv _ ⟨h.1, h.2⟩)

/-- Starting from closed handles, `Jinv` holds anywhere inside a
read-direction transaction. -/
theorem midRead_Jinv (card : Card) (s : Session) (n : Nat)
    (h : handlesClosed s) : Jinv (midRead card s n) := by
  unfold midRead
  exact Jinv_dataReads card n _ (handlesClosed_Jinv _ ⟨h.1, h.2⟩)

/-- A stop-terminated transaction maps closed handles to closed
handles. -/
theorem runTxn_closed (card : Card) (s : Session) (t : Txn)
    (h : handlesClosed s) : handlesClosed (runTxn card s t) := by
  cases t with
  | wr bs => exact stopEvent_closes _ (midWrite_Jinv card s bs h)
  | rd n => exact stopEvent_closes _ (midRead_Jinv card s n h)

/-- Any sequence of stop-terminated transactions maps closed handles to
closed handles. -/
theorem runTxns_closed (card : Card) (ts : List Txn) (s : Session)
    (h : handlesClosed s) : handlesClosed (runTxns card s ts) := by
  induction ts generalizing s with
  | nil => exact h
  | cons t ts ih => exact ih _ (runTxn_closed card s t h)

/-- C9 (corrected): provided every transaction is terminated by a stop
event before the next selection, every state reachable from startup —
between transactions, or partway through a write- or read-direction
transaction — has at most one of the file and directory handles open. -/
theorem c9_stop_terminated_invariant (card : Card) (ts : List Txn)
    (bs : List Nat) (n : Nat) :
    atMostOneHandle (runTxns card initSession ts) ∧
    atMostOneHandle (midWrite card (runTxns card initSession ts) bs) ∧
    atMostOneHandle (midRead card (runTxns card initSession ts) n) := by
  have hcl : handlesClosed (runTxns card initSession ts) :=
    runTxns_closed card ts initSession ⟨rfl, rfl⟩
  exact ⟨Jinv_atMostOne _ (handlesClosed_Jinv _ hcl),
    Jinv_atMostOne _ (midWrite_Jinv card _ bs hcl),
    Jinv_atMostOne _ (midRead_Jinv card _ n hcl)⟩

/-- C9 (counterexample): with repeated starts (selections not preceded
by a stop), the sequence select-write, 'L', select-read, one listing
byte, select-write, 'W' reaches a state in which the directory handle
and the file handle are both open. -/
theorem c9_repeated_start_both_open :
    (run fullCard initSession bothOpenEvents).myFile.isSome = true ∧
    (run fullCard initSession bothOpenEvents).dir.isSome = true :=
  ⟨rfl, rfl⟩

end I2CSD
